import Mathlib

/-!
Shallow embedding of the LibSagerNetCore bridge (package `libcore`).

The per-app traffic accounting lives in the stats source file
(`appStats`, `AppStats`, `ResetAppTraffics`, `ReadAppTraffics`,
`statsConn`, `statsPacketConn`); the flow handlers and the NAT table
live in `tun.go` (`Tun2ray.NewConnection`, `Tun2ray.NewPacket`,
`natTable`).

Machine integers are modelled as `Nat` (for the unsigned `uint32`,
`uint64` fields) and `Int` (for the signed `int32`, `int64` fields),
with reduction modulo `2 ^ w` written out exactly where the Go code
can overflow (unsigned adds, narrowing conversions).  Go maps keyed by
`uint16` are modelled as association lists `List (Nat × appStats)`;
map iteration order does not matter to any statement below because
the snapshot and reset operations act entrywise.
-/

namespace Libcore

/-- Go conversion `int32(x)`: keep the low 32 bits and reinterpret them
as a signed 32-bit value. -/
def toInt32 (x : Int) : Int := (x + 2 ^ 31) % 2 ^ 32 - 2 ^ 31

/-- Go conversion `int64(x)` applied to a `uint64` value: keep the low
64 bits and reinterpret them as a signed 64-bit value. -/
def toInt64 (x : Int) : Int := (x + 2 ^ 63) % 2 ^ 64 - 2 ^ 63

/-- The exported (public) per-app stats record, struct `AppStats`.
All fields are signed (`int32` or `int64`) in the source. -/
structure AppStats where
  Uid : Int
  TcpConn : Int
  UdpConn : Int
  TcpConnTotal : Int
  UdpConnTotal : Int
  Uplink : Int
  Downlink : Int
  UplinkTotal : Int
  DownlinkTotal : Int
  DeactivateAt : Int
deriving Repr, DecidableEq

/-- The internal per-app stats record, struct `appStats`:
`tcpConn`, `udpConn` are `int32`; `tcpConnTotal`, `udpConnTotal` are
`uint32`; the four byte counters are `uint64`; `deactivateAt` is
`int64`. -/
structure appStats where
  tcpConn : Int
  udpConn : Int
  tcpConnTotal : Nat
  udpConnTotal : Nat
  uplink : Nat
  downlink : Nat
  uplinkTotal : Nat
  downlinkTotal : Nat
  deactivateAt : Int
deriving Repr, DecidableEq

/-- The fields of struct `Tun2ray` that the stats and flow logic read.
The handles to the TUN device, the dispatcher and the NAT table are
external collaborators and are not part of the embedded state; the
`appStats` map (field `appStats` in the source) is the association
list `appStatsMap`. -/
structure Tun2ray where
  router : String
  fakedns : Bool
  sniffing : Bool
  overrideDestination : Bool
  debug : Bool
  dumpUid : Bool
  trafficStats : Bool
  appStatsMap : List (Nat × appStats)
deriving Repr, DecidableEq

/-- The body of the per-entry loop of `ResetAppTraffics`: the four
byte counters are stored to zero (`atomic.StoreUint64`). -/
def zeroBytes (s : appStats) : appStats :=
  { s with uplink := 0, downlink := 0, uplinkTotal := 0, downlinkTotal := 0 }

/-- `Tun2ray.ResetAppTraffics`: when traffic stats are enabled, zero
the four byte counters of every entry, and delete exactly the entries
collected in `toDel`, namely those with `tcpConn + udpConn == 0`. -/
def ResetAppTraffics (t : Tun2ray) : Tun2ray :=
  if !t.trafficStats then t
  else
    let zeroed := t.appStatsMap.map (fun p => (p.1, zeroBytes p.2))
    { t with appStatsMap := zeroed.filter (fun p => !(p.2.tcpConn + p.2.udpConn == 0)) }

/-- The per-entry body of the `ReadAppTraffics` loop: build the export
record, swap each window counter to zero, add the swapped value to the
corresponding total (`uint64` add, hence modulo `2 ^ 64`), and export
the total as read back after the add.  Returns the updated internal
entry together with the export record. -/
def snapshotEntry (uid : Nat) (stat : appStats) : appStats × AppStats :=
  let uplink : Nat := stat.uplink
  let uplinkTotal : Nat := (stat.uplinkTotal + uplink) % 2 ^ 64
  let downlink : Nat := stat.downlink
  let downlinkTotal : Nat := (stat.downlinkTotal + downlink) % 2 ^ 64
  let ex : AppStats :=
    { Uid := toInt32 uid
      TcpConn := stat.tcpConn
      UdpConn := stat.udpConn
      TcpConnTotal := toInt32 stat.tcpConnTotal
      UdpConnTotal := toInt32 stat.udpConnTotal
      Uplink := toInt64 uplink
      UplinkTotal := toInt64 uplinkTotal
      Downlink := toInt64 downlink
      DownlinkTotal := toInt64 downlinkTotal
      DeactivateAt := toInt32 stat.deactivateAt }
  ({ stat with uplink := 0, downlink := 0,
               uplinkTotal := uplinkTotal, downlinkTotal := downlinkTotal },
   ex)

/-- `Tun2ray.ReadAppTraffics`: when traffic stats are enabled, run
`snapshotEntry` over every entry; the listener receives the list of
export records.  The map itself gains and loses no entry. -/
def ReadAppTraffics (t : Tun2ray) : Tun2ray × List AppStats :=
  if !t.trafficStats then (t, [])
  else
    let results := t.appStatsMap.map (fun p => (p.1, snapshotEntry p.1 p.2))
    ({ t with appStatsMap := results.map (fun r => (r.1, r.2.1)) },
     results.map (fun r => r.2.2))

/-- `statsConn.Read`: the wrapped read returns `(n, err)`; the deferred
`atomic.AddUint64(c.uplink, uint64(n))` runs unconditionally, also when
`err` is non-nil.  The wrapper state is the pair of shared counters of
the owning `appStats` entry; `err = true` models a non-nil error. -/
def statsConnRead (s : appStats) (n : Nat) (err : Bool) : appStats × Nat × Bool :=
  ({ s with uplink := (s.uplink + n) % 2 ^ 64 }, n, err)

/-- `statsConn.Write`: the deferred add on `downlink` runs
unconditionally, also when `err` is non-nil. -/
def statsConnWrite (s : appStats) (n : Nat) (err : Bool) : appStats × Nat × Bool :=
  ({ s with downlink := (s.downlink + n) % 2 ^ 64 }, n, err)

/-- `statsPacketConn.ReadFrom`: the add on `downlink` runs only under
`err == nil`. -/
def statsPacketConnReadFrom (s : appStats) (n : Nat) (err : Bool) :
    appStats × Nat × Bool :=
  if err then (s, n, err)
  else ({ s with downlink := (s.downlink + n) % 2 ^ 64 }, n, err)

/-- `statsPacketConn.readFrom` (the buffer-returning variant used by
the UDP read loop): on `err == nil` add the length of the returned
buffer to `downlink`. -/
def statsPacketConnReadFromBuf (s : appStats) (plen : Nat) (err : Bool) :
    appStats × Nat × Bool :=
  if err then (s, plen, err)
  else ({ s with downlink := (s.downlink + plen) % 2 ^ 64 }, plen, err)

/-- `statsPacketConn.WriteTo`: the add on `uplink` runs only under
`err == nil`. -/
def statsPacketConnWriteTo (s : appStats) (n : Nat) (err : Bool) :
    appStats × Nat × Bool :=
  if err then (s, n, err)
  else ({ s with uplink := (s.uplink + n) % 2 ^ 64 }, n, err)

/-! ## Flow handlers (`tun.go`)

`NewConnection` and `NewPacket` call external collaborators: the UID
resolver (`uidDumper.DumpUid`, `os.Getuid`), the dispatcher
(`DispatchLink`, `dialUDP`) and the conn itself.  Those calls are
modelled as oracle inputs carried by an environment record, and the
handler is embedded as a function from the bridge state, the
destination address string and the environment to the record of
observable effects of the call. -/

/-- Result of the `uidDumper.DumpUid` call: `ok` models `err == nil`,
`uid` the returned `uint32` value. -/
structure UidDumpResult where
  ok : Bool
  uid : Nat
deriving Repr, DecidableEq

/-- Oracle inputs of one `NewConnection` call: the UID dump result,
the process UID (`os.Getuid()`), and whether `DispatchLink` returns a
non-nil error. -/
structure ConnEnv where
  dump : UidDumpResult
  procUid : Nat
  dispatchErr : Bool
deriving Repr, DecidableEq

/-- Observable effects of one `NewConnection` call. -/
structure ConnEffects where
  tag : String
  inboundUid : Nat
  sniffAttached : Bool
  sniffProtocols : List String
  statsAttached : Bool
  dispatchLogged : Bool
  copied : Bool
  closedConn : Bool
  closedReader : Bool
  closedWriter : Bool
deriving Repr, DecidableEq

/-- `Tun2ray.NewConnection`, with endpoints abstracted to the
destination address string.  Mirrors the source order: classify DNS by
comparing against `t.router`; dump the UID when `dumpUid` or
`trafficStats` is set (`uid = uint16(u)`, `self` from the process UID,
clamp `uid < 10000` to `1000`); attach a stats wrapper when
`trafficStats && !self && !isDns`; attach a sniffing request when
`!isDns && (sniffing || fakedns)` with protocols
`{fakedns} ++ {http, tls}`; dispatch, logging on error and copying
otherwise; finally `closeIgnore(conn, link.Reader, link.Writer)` on
every path. -/
def NewConnectionModel (t : Tun2ray) (destAddr : String) (env : ConnEnv) :
    ConnEffects :=
  let isDns := destAddr == t.router
  let tag := if isDns then "dns-in" else "socks"
  let dumped := (t.dumpUid || t.trafficStats) && env.dump.ok
  let uidRaw := if dumped then env.dump.uid % 2 ^ 16 else 0
  let self := dumped && (uidRaw != 0) && (uidRaw == env.procUid)
  let uid := if dumped && uidRaw < 10000 then 1000 else uidRaw
  let sniffAttached := !isDns && (t.sniffing || t.fakedns)
  let sniffProtocols :=
    if sniffAttached then
      (if t.fakedns then ["fakedns"] else []) ++
      (if t.sniffing then ["http", "tls"] else [])
    else []
  let statsAttached := t.trafficStats && !self && !isDns
  { tag := tag
    inboundUid := uid
    sniffAttached := sniffAttached
    sniffProtocols := sniffProtocols
    statsAttached := statsAttached
    dispatchLogged := env.dispatchErr
    copied := !env.dispatchErr
    closedConn := true
    closedReader := true
    closedWriter := true }

/-- Oracle inputs of one `NewPacket` call on the creation path: the
UID dump result, the process UID, and whether `dialUDP` returns a
non-nil error. -/
structure PacketEnv where
  dump : UidDumpResult
  procUid : Nat
  dialErr : Bool
deriving Repr, DecidableEq

/-- Observable effects of one `NewPacket` call on the creation path. -/
structure PacketEffects where
  tag : String
  inboundUid : Nat
  sniffAttached : Bool
  sniffProtocols : List String
  statsAttached : Bool
  dialLogged : Bool
  natSet : Bool
  closedConn : Bool
  closedCloser : Bool
  natKeyDeleted : Bool
deriving Repr, DecidableEq

/-- `Tun2ray.NewPacket` from the point where the caller owns creation
(after `GetOrCreateLock` returned `loaded == false`, the lock key was
deleted and the barrier broadcast), with endpoints abstracted to the
destination address string.  Mirrors the source order: classify DNS;
dump the UID (same rules as TCP); attach a sniffing request with
protocols `{fakedns} ++ {quic}`; `dialUDP` — on a non-nil error log
and return at once, so neither the upstream conn (never created) nor
the TUN-side `closer` is closed and the NAT entry is never set; on
success attach stats when `trafficStats && !self && !isDns`, install
the NAT entry, run the read loop until an error, then
`closeIgnore(conn, closer)` and delete the NAT entry. -/
def NewPacketOwner (t : Tun2ray) (destAddr : String) (env : PacketEnv) :
    PacketEffects :=
  let isDns := destAddr == t.router
  let tag := if isDns then "dns-in" else "socks"
  let dumped := (t.dumpUid || t.trafficStats) && env.dump.ok
  let uidRaw := if dumped then env.dump.uid % 2 ^ 16 else 0
  let self := dumped && (uidRaw != 0) && (uidRaw == env.procUid)
  let uid := if dumped && uidRaw < 10000 then 1000 else uidRaw
  let sniffAttached := !isDns && (t.sniffing || t.fakedns)
  let sniffProtocols :=
    if sniffAttached then
      (if t.fakedns then ["fakedns"] else []) ++
      (if t.sniffing then ["quic"] else [])
    else []
  if env.dialErr then
    { tag := tag
      inboundUid := uid
      sniffAttached := sniffAttached
      sniffProtocols := sniffProtocols
      statsAttached := false
      dialLogged := true
      natSet := false
      closedConn := false
      closedCloser := false
      natKeyDeleted := false }
  else
    { tag := tag
      inboundUid := uid
      sniffAttached := sniffAttached
      sniffProtocols := sniffProtocols
      statsAttached := t.trafficStats && !self && !isDns
      dialLogged := false
      natSet := true
      closedConn := true
      closedCloser := true
      natKeyDeleted := true }

/-! ## NAT table (`natTable`, `tun.go`)

`natTable` wraps a `sync.Map` holding, under plain string keys, either
an upstream packet conn or a condition-variable barrier (stored under
the `"-lock"`-suffixed key).  The map is embedded as an association
list; `LoadOrStore` is atomic in the source, and atomicity is
represented by making it a single step of the interleaving machine
below. -/

/-- A value stored in the NAT table: an upstream packet conn
(identified by a numeric id) or a creation barrier (`sync.Cond`). -/
inductive NatVal where
  | pconn (id : Nat)
  | barrier
deriving Repr, DecidableEq

/-- `sync.Map.Load`. -/
def natGet (m : List (String × NatVal)) (k : String) : Option NatVal :=
  match m with
  | [] => none
  | p :: rest => if p.1 = k then some p.2 else natGet rest k

/-- `sync.Map.Store`. -/
def natSet (m : List (String × NatVal)) (k : String) (v : NatVal) :
    List (String × NatVal) :=
  match m with
  | [] => [(k, v)]
  | p :: rest => if p.1 = k then (k, v) :: rest else p :: natSet rest k v

/-- `sync.Map.Delete`. -/
def natDelete (m : List (String × NatVal)) (k : String) :
    List (String × NatVal) :=
  match m with
  | [] => []
  | p :: rest => if p.1 = k then natDelete rest k else p :: natDelete rest k

/-- `sync.Map.LoadOrStore`: return the existing value with
`loaded = true`, or store `v` and return it with `loaded = false`. -/
def natLoadOrStore (m : List (String × NatVal)) (k : String) (v : NatVal) :
    List (String × NatVal) × NatVal × Bool :=
  match natGet m k with
  | some w => (m, w, true)
  | none => (natSet m k v, v, false)

/-- `natTable.GetOrCreateLock`: `LoadOrStore` of a fresh barrier. -/
def GetOrCreateLock (m : List (String × NatVal)) (k : String) :
    List (String × NatVal) × Bool :=
  let r := natLoadOrStore m k .barrier
  (r.1, r.2.2)

/-- The lock key of a NAT key: `natKey + "-lock"`. -/
def lockKey (natKey : String) : String := natKey ++ "-lock"

/-! ## Interleaving machine for concurrent `NewPacket` calls

Each concurrent `NewPacket` invocation sharing one source endpoint is
a process stepping through the control points of the source, one
shared-state access per step.  `NPSys` carries the NAT table, the
number of barrier broadcasts so far, the number of `dialUDP`
invocations, and the number of `Delete(natKey)` calls. -/

/-- Control points of one `NewPacket` invocation. -/
inductive NPState where
  | start
  | atLock
  | waiting (seen : Nat)
  | retry
  | owner
  | afterDelete
  | beforeDial
  | afterDial (connId : Nat)
  | loop
  | done
deriving Repr, DecidableEq

/-- Shared state of the interleaving machine. -/
structure NPSys where
  table : List (String × NatVal)
  bcasts : Nat
  dials : Nat
  natKeyDeletes : Nat
  nextId : Nat
deriving Repr, DecidableEq

/-- One step of one `NewPacket` process.  `start`: the fast path
(`Get(natKey)`, write the datagram on a hit).  `atLock`:
`GetOrCreateLock(lockKey)`; a loaded barrier sends the process to
`waiting`, otherwise it owns creation.  A waiting process wakes once
the broadcast count has grown, retries the fast path once and returns
(a miss drops the datagram).  The owner deletes the lock key,
broadcasts, dials (counted), stores the conn under `natKey`, runs the
read loop and, on the loop ending, deletes the NAT entry. -/
def npStep (natKey : String) (s : NPSys) (pc : NPState) : NPSys × NPState :=
  match pc with
  | .start =>
      match natGet s.table natKey with
      | some _ => (s, .done)
      | none => (s, .atLock)
  | .atLock =>
      let r := GetOrCreateLock s.table (lockKey natKey)
      if r.2 then ({ s with table := r.1 }, .waiting s.bcasts)
      else ({ s with table := r.1 }, .owner)
  | .waiting seen =>
      if seen < s.bcasts then (s, .retry) else (s, .waiting seen)
  | .retry => (s, .done)
  | .owner =>
      ({ s with table := natDelete s.table (lockKey natKey) }, .afterDelete)
  | .afterDelete => ({ s with bcasts := s.bcasts + 1 }, .beforeDial)
  | .beforeDial =>
      ({ s with dials := s.dials + 1, nextId := s.nextId + 1 },
       .afterDial s.nextId)
  | .afterDial cid =>
      ({ s with table := natSet s.table natKey (.pconn cid) }, .loop)
  | .loop =>
      ({ s with table := natDelete s.table natKey,
                natKeyDeletes := s.natKeyDeletes + 1 }, .done)
  | .done => (s, .done)

/-- Run a schedule: each entry names the process to step next. -/
def npRun (natKey : String) (s : NPSys) (pcs : List NPState) :
    List Nat → NPSys × List NPState
  | [] => (s, pcs)
  | i :: rest =>
      match pcs.get? i with
      | none => npRun natKey s pcs rest
      | some pc =>
          let r := npStep natKey s pc
          npRun natKey r.1 (pcs.set i r.2) rest

/-- Modelled from the spec: the helper `closeIgnore` is called by both
handlers but its body is not under `src/`.  The spec states "Closes
are idempotent and swallow errors."  The state is the set of
already-closed resources (identified by numeric ids); closing a group
of resources adds them to the set. -/
def closeIgnore (closed rs : Finset ℕ) : Finset ℕ := closed ∪ rs

/-! ## Concrete inputs used by the claim witnesses and counterexamples -/

/-- A live entry with pending window bytes (C1). -/
def c1Stat : appStats :=
  { tcpConn := 1, udpConn := 0, tcpConnTotal := 1, udpConnTotal := 0,
    uplink := 3, downlink := 4, uplinkTotal := 5, downlinkTotal := 7,
    deactivateAt := 0 }

/-- A bridge with stats enabled and one entry (C1). -/
def c1Tun : Tun2ray :=
  { router := "1.2.3.4", fakedns := false, sniffing := false,
    overrideDestination := false, debug := false, dumpUid := false,
    trafficStats := true, appStatsMap := [(1000, c1Stat)] }

/-- The internal entry of `c1Tun` after one snapshot (C1). -/
def c1Post : appStats := (snapshotEntry 1000 c1Stat).1

/-- A live entry with nonzero byte totals (C2). -/
def c2Stat : appStats :=
  { tcpConn := 1, udpConn := 0, tcpConnTotal := 1, udpConnTotal := 0,
    uplink := 3, downlink := 4, uplinkTotal := 5, downlinkTotal := 7,
    deactivateAt := 0 }

/-- A bridge with stats enabled and one live entry whose totals are
nonzero (C2). -/
def c2Tun : Tun2ray :=
  { router := "1.2.3.4", fakedns := false, sniffing := false,
    overrideDestination := false, debug := false, dumpUid := false,
    trafficStats := true, appStatsMap := [(1000, c2Stat)] }

/-- An entry with both live counts zero (C3). -/
def c3Stat : appStats :=
  { tcpConn := 0, udpConn := 0, tcpConnTotal := 2, udpConnTotal := 1,
    uplink := 9, downlink := 9, uplinkTotal := 10, downlinkTotal := 10,
    deactivateAt := 1700000000 }

/-- A bridge with stats enabled and one dead entry (C3). -/
def c3Tun : Tun2ray :=
  { router := "1.2.3.4", fakedns := false, sniffing := false,
    overrideDestination := false, debug := false, dumpUid := false,
    trafficStats := true, appStatsMap := [(7, c3Stat)] }

/-- Empty NAT table, no dial yet (C4). -/
def c4Init : NPSys :=
  { table := [], bcasts := 0, dials := 0, natKeyDeletes := 0, nextId := 0 }

/-- Two concurrent `NewPacket` invocations for source endpoint `"s"`:
process 0 runs through the fast-path miss, installs the barrier, owns
creation, deletes the lock key and broadcasts; then process 1 starts,
misses the fast path (the conn is not yet installed), finds the lock
key absent (process 0 already deleted it) and becomes a second owner;
both then dial (C4). -/
def c4Trace : NPSys × List NPState :=
  npRun "s" c4Init [.start, .start] [0, 0, 0, 0, 1, 1, 0, 1, 1, 1]

/-- A counter state for the packet-conn accounting witness (C6). -/
def c6Stat : appStats :=
  { tcpConn := 0, udpConn := 1, tcpConnTotal := 0, udpConnTotal := 1,
    uplink := 1, downlink := 2, uplinkTotal := 3, downlinkTotal := 4,
    deactivateAt := 0 }

/-- A live entry (survives reset) with nonzero byte counters (C7). -/
def c7Live : appStats :=
  { tcpConn := 1, udpConn := 0, tcpConnTotal := 4, udpConnTotal := 0,
    uplink := 11, downlink := 12, uplinkTotal := 13, downlinkTotal := 14,
    deactivateAt := 0 }

/-- A dead entry (removed by reset) (C7). -/
def c7Dead : appStats :=
  { tcpConn := 0, udpConn := 0, tcpConnTotal := 1, udpConnTotal := 1,
    uplink := 5, downlink := 6, uplinkTotal := 7, downlinkTotal := 8,
    deactivateAt := 1700000000 }

/-- A bridge with one live and one dead entry (C7). -/
def c7Tun : Tun2ray :=
  { router := "1.2.3.4", fakedns := false, sniffing := false,
    overrideDestination := false, debug := false, dumpUid := false,
    trafficStats := true,
    appStatsMap := [(1000, c7Live), (7, c7Dead)] }

/-- A bridge for the teardown claims (C8). -/
def c8Tun : Tun2ray :=
  { router := "1.2.3.4", fakedns := false, sniffing := false,
    overrideDestination := false, debug := false, dumpUid := false,
    trafficStats := true, appStatsMap := [] }

/-- A `NewPacket` environment where `dialUDP` fails (C8). -/
def c8Env : PacketEnv :=
  { dump := { ok := false, uid := 0 }, procUid := 0, dialErr := true }

/-- A `NewPacket` environment where `dialUDP` succeeds (C8). -/
def c8EnvOk : PacketEnv :=
  { dump := { ok := false, uid := 0 }, procUid := 0, dialErr := false }

/-- A bridge with sniffing, fakedns and stats all enabled (C9). -/
def c9Tun : Tun2ray :=
  { router := "1.2.3.4", fakedns := true, sniffing := true,
    overrideDestination := false, debug := false, dumpUid := true,
    trafficStats := true, appStatsMap := [] }

/-- A `NewConnection` environment with a successful UID dump (C9). -/
def c9CEnv : ConnEnv :=
  { dump := { ok := true, uid := 10042 }, procUid := 0, dispatchErr := false }

/-- A `NewPacket` environment with a successful UID dump (C9). -/
def c9PEnv : PacketEnv :=
  { dump := { ok := true, uid := 10042 }, procUid := 0, dialErr := false }

/-- An entry whose `uint32` connection total and `int64`
`deactivateAt` both exceed `2 ^ 31 - 1` (C10). -/
def c10Stat : appStats :=
  { tcpConn := 0, udpConn := 0, tcpConnTotal := 2 ^ 31, udpConnTotal := 3,
    uplink := 0, downlink := 0, uplinkTotal := 0, downlinkTotal := 0,
    deactivateAt := 2 ^ 31 }

/-- A bridge with stats enabled holding `c10Stat` (C10). -/
def c10Tun : Tun2ray :=
  { router := "1.2.3.4", fakedns := false, sniffing := false,
    overrideDestination := false, debug := false, dumpUid := false,
    trafficStats := true, appStatsMap := [(1, c10Stat)] }

/-! ## Helper lemmas -/

set_option maxRecDepth 8000

theorem readAppTraffics_exports (t : Tun2ray) (h : t.trafficStats = true) :
    (ReadAppTraffics t).2 = t.appStatsMap.map (fun p => (snapshotEntry p.1 p.2).2) := by
  simp [ReadAppTraffics, h]

theorem readAppTraffics_state (t : Tun2ray) (h : t.trafficStats = true) :
    (ReadAppTraffics t).1.appStatsMap
      = t.appStatsMap.map (fun p => (p.1, (snapshotEntry p.1 p.2).1)) := by
  simp [ReadAppTraffics, h]

theorem readAppTraffics_flags (t : Tun2ray) :
    (ReadAppTraffics t).1.trafficStats = t.trafficStats := by
  cases h : t.trafficStats <;> simp [ReadAppTraffics, h]

theorem snapshotEntry_snd_idem (uid : Nat) (s : appStats) :
    (snapshotEntry uid (snapshotEntry uid s).1).2
      = { (snapshotEntry uid s).2 with Uplink := 0, Downlink := 0 } := by
  simp [snapshotEntry]
  decide

theorem natGet_natSet_self (m : List (String × NatVal)) (k : String) (v : NatVal) :
    natGet (natSet m k v) k = some v := by
  induction m with
  | nil => simp [natSet, natGet]
  | cons p rest ih =>
      by_cases hp : p.1 = k
      · simp [natSet, hp, natGet]
      · simp [natSet, hp, natGet, ih]

theorem natGet_natDelete_self (m : List (String × NatVal)) (k : String) :
    natGet (natDelete m k) k = none := by
  induction m with
  | nil => simp [natDelete, natGet]
  | cons p rest ih =>
      by_cases hp : p.1 = k
      · simp [natDelete, hp, ih]
      · simp [natDelete, hp, natGet, ih]

/-! ## Claims -/

/-- C1: `ReadAppTraffics` swaps each window byte counter to zero and
adds the swapped value to the corresponding total, exporting the total
as read after the add.  After the call every entry has zero window
counters; a second call with no intervening traffic reports zero
windows and the same totals (all other exported fields equal as
well). -/
theorem c1_read_swap_then_add (t : Tun2ray) (h : t.trafficStats = true) :
    (∀ p ∈ (ReadAppTraffics t).1.appStatsMap, p.2.uplink = 0 ∧ p.2.downlink = 0)
  ∧ (∀ i : Nat, ∀ hi : i < t.appStatsMap.length,
      ∀ hj : i < (ReadAppTraffics t).2.length,
      ((ReadAppTraffics t).2.get ⟨i, hj⟩).Uplink
          = toInt64 (t.appStatsMap.get ⟨i, hi⟩).2.uplink
      ∧ ((ReadAppTraffics t).2.get ⟨i, hj⟩).UplinkTotal
          = toInt64 (((t.appStatsMap.get ⟨i, hi⟩).2.uplinkTotal
              + (t.appStatsMap.get ⟨i, hi⟩).2.uplink) % 2 ^ 64)
      ∧ ((ReadAppTraffics t).2.get ⟨i, hj⟩).Downlink
          = toInt64 (t.appStatsMap.get ⟨i, hi⟩).2.downlink
      ∧ ((ReadAppTraffics t).2.get ⟨i, hj⟩).DownlinkTotal
          = toInt64 (((t.appStatsMap.get ⟨i, hi⟩).2.downlinkTotal
              + (t.appStatsMap.get ⟨i, hi⟩).2.downlink) % 2 ^ 64))
  ∧ (ReadAppTraffics (ReadAppTraffics t).1).2
      = (ReadAppTraffics t).2.map (fun e => { e with Uplink := 0, Downlink := 0 }) := by
  have hflags : (ReadAppTraffics t).1.trafficStats = true := by
    rw [readAppTraffics_flags, h]
  refine ⟨?_, ?_, ?_⟩
  · intro p hp
    rw [readAppTraffics_state t h] at hp
    rw [List.mem_map] at hp
    obtain ⟨q, hq, rfl⟩ := hp
    simp [snapshotEntry]
  · intro i hi hj
    have he := readAppTraffics_exports t h
    simp only [he, List.get_eq_getElem, List.getElem_map]
    simp [snapshotEntry]
  · rw [readAppTraffics_exports _ hflags, readAppTraffics_exports t h,
        readAppTraffics_state t h, List.map_map, List.map_map]
    induction t.appStatsMap with
    | nil => simp
    | cons a l ih => simp [ih, Function.comp, snapshotEntry_snd_idem]

/-- C1 witness: the single entry of `c1Tun` has zero window counters
after the snapshot. -/
theorem c1_read_swap_then_add_witness :
    c1Post.uplink = 0 ∧ c1Post.downlink = 0 :=
  (c1_read_swap_then_add c1Tun rfl).1 (1000, c1Post) (by decide)

/-- C2 counterexample: `ResetAppTraffics` is one of the registry
operations listed by the claim, yet it shrinks the totals of the
(surviving) entry of `c2Tun` from `(5, 7)` to `(0, 0)`, so the totals
are not monotonically non-decreasing across every sequence of registry
operations. -/
theorem c2_total_monotonic_counterexample :
    c2Tun.appStatsMap.map (fun p => (p.1, p.2.uplinkTotal, p.2.downlinkTotal))
      = [(1000, 5, 7)]
  ∧ (ResetAppTraffics c2Tun).appStatsMap.map
        (fun p => (p.1, p.2.uplinkTotal, p.2.downlinkTotal))
      = [(1000, 0, 0)] := by decide

/-- C2 amended: `uplinkTotal` and `downlinkTotal` are non-decreasing
under `ReadAppTraffics` (absent `uint64` wraparound of the add) and
are never touched by the stats-wrapped reads and writes;
`ResetAppTraffics` zeroes them, so monotonicity does not extend across
a reset. -/
theorem c2_total_monotonic_amended (t : Tun2ray) (i : Nat)
    (hi : i < t.appStatsMap.length)
    (hj : i < (ReadAppTraffics t).1.appStatsMap.length)
    (hu : (t.appStatsMap.get ⟨i, hi⟩).2.uplinkTotal
        + (t.appStatsMap.get ⟨i, hi⟩).2.uplink < 2 ^ 64)
    (hd : (t.appStatsMap.get ⟨i, hi⟩).2.downlinkTotal
        + (t.appStatsMap.get ⟨i, hi⟩).2.downlink < 2 ^ 64) :
    ((t.appStatsMap.get ⟨i, hi⟩).2.uplinkTotal
        ≤ ((ReadAppTraffics t).1.appStatsMap.get ⟨i, hj⟩).2.uplinkTotal
    ∧ (t.appStatsMap.get ⟨i, hi⟩).2.downlinkTotal
        ≤ ((ReadAppTraffics t).1.appStatsMap.get ⟨i, hj⟩).2.downlinkTotal)
  ∧ (∀ s : appStats, ∀ n : Nat, ∀ err : Bool,
        (statsConnRead s n err).1.uplinkTotal = s.uplinkTotal
      ∧ (statsConnRead s n err).1.downlinkTotal = s.downlinkTotal
      ∧ (statsConnWrite s n err).1.uplinkTotal = s.uplinkTotal
      ∧ (statsConnWrite s n err).1.downlinkTotal = s.downlinkTotal
      ∧ (statsPacketConnReadFrom s n err).1.uplinkTotal = s.uplinkTotal
      ∧ (statsPacketConnReadFrom s n err).1.downlinkTotal = s.downlinkTotal
      ∧ (statsPacketConnWriteTo s n err).1.uplinkTotal = s.uplinkTotal
      ∧ (statsPacketConnWriteTo s n err).1.downlinkTotal = s.downlinkTotal) := by
  have hu2 : t.appStatsMap[i].2.uplinkTotal + t.appStatsMap[i].2.uplink < 2 ^ 64 := by
    simpa using hu
  have hd2 : t.appStatsMap[i].2.downlinkTotal + t.appStatsMap[i].2.downlink < 2 ^ 64 := by
    simpa using hd
  norm_num at hu2 hd2
  constructor
  · cases hT : t.trafficStats
    · have hmap : (ReadAppTraffics t).1.appStatsMap = t.appStatsMap := by
        simp [ReadAppTraffics, hT]
      simp only [List.get_eq_getElem, hmap]
      exact ⟨le_refl _, le_refl _⟩
    · have hs := readAppTraffics_state t hT
      simp only [hs, List.get_eq_getElem, List.getElem_map]
      constructor
      · simp [snapshotEntry]
        omega
      · simp [snapshotEntry]
        omega
  · intro s n err
    cases err <;>
      simp [statsConnRead, statsConnWrite, statsPacketConnReadFrom,
            statsPacketConnWriteTo]

/-- C2 amended witness: the totals of the entry of `c2Tun` do not
decrease across one `ReadAppTraffics`. -/
theorem c2_total_monotonic_amended_witness :
    ((c2Tun.appStatsMap.get ⟨0, by decide⟩).2.uplinkTotal
        ≤ ((ReadAppTraffics c2Tun).1.appStatsMap.get ⟨0, by decide⟩).2.uplinkTotal
    ∧ (c2Tun.appStatsMap.get ⟨0, by decide⟩).2.downlinkTotal
        ≤ ((ReadAppTraffics c2Tun).1.appStatsMap.get ⟨0, by decide⟩).2.downlinkTotal) :=
  (c2_total_monotonic_amended c2Tun 0 (by decide) (by decide)
    (by decide) (by decide)).1

/-- C3 counterexample: `c3Tun` holds one entry whose live TCP and UDP
counts are both zero; after `ReadAppTraffics` that entry is still in
the map (key 7 is still present), so the snapshot performs no removal
pass. -/
theorem c3_snapshot_gc_counterexample :
    c3Tun.appStatsMap.map (fun p => (p.1, p.2.tcpConn, p.2.udpConn)) = [(7, 0, 0)]
  ∧ (ReadAppTraffics c3Tun).1.appStatsMap.map Prod.fst = [7] := by decide

/-- C3 amended: `ReadAppTraffics` removes no entries at all — the key
list of the app-stats map is unchanged by the call; the garbage
collection of zero-live entries happens only in `ResetAppTraffics`. -/
theorem c3_snapshot_gc_amended (t : Tun2ray) :
    (ReadAppTraffics t).1.appStatsMap.map Prod.fst = t.appStatsMap.map Prod.fst := by
  cases hT : t.trafficStats
  · simp [ReadAppTraffics, hT]
  · rw [readAppTraffics_state t hT, List.map_map]
    induction t.appStatsMap with
    | nil => simp
    | cons a l ih => simp [ih, Function.comp]

/-- C4 counterexample: in the interleaving `c4Trace` of two concurrent
`NewPacket` invocations sharing the source endpoint `"s"`, `dialUDP`
is invoked twice although the NAT entry for that key has never been
deleted — the owner deletes the lock key and broadcasts before
dialing, so the second invocation installs a fresh barrier with
`loaded = false` and dials as well. -/
theorem c4_single_flight_counterexample :
    c4Trace.1.dials = 2 ∧ c4Trace.1.natKeyDeletes = 0 := by decide

/-- C4 amended: the `GetOrCreateLock` contract holds as claimed —
`loaded = false` exactly for the caller that installs the barrier
while the key is absent, `loaded = true` (and no table change) for
every caller that finds it, and the key is absent again after
`Delete`.  The single-flight bound, however, lasts only until the
owner deletes the lock key (which the source does before dialing),
not until the NAT entry is deleted. -/
theorem c4_single_flight_amended (m : List (String × NatVal)) (k : String) :
    (natGet m k = none →
        (GetOrCreateLock m k).2 = false
      ∧ natGet (GetOrCreateLock m k).1 k = some .barrier)
  ∧ (∀ v : NatVal, natGet m k = some v →
        (GetOrCreateLock m k).2 = true ∧ (GetOrCreateLock m k).1 = m)
  ∧ natGet (natDelete m k) k = none := by
  refine ⟨?_, ?_, natGet_natDelete_self m k⟩
  · intro h
    simp [GetOrCreateLock, natLoadOrStore, h, natGet_natSet_self]
  · intro v h
    simp [GetOrCreateLock, natLoadOrStore, h]

/-- C4 amended witness: on the empty table, the caller of
`GetOrCreateLock` installs the barrier and gets `loaded = false`. -/
theorem c4_single_flight_amended_witness :
    (GetOrCreateLock ([] : List (String × NatVal)) "s").2 = false
  ∧ natGet (GetOrCreateLock ([] : List (String × NatVal)) "s").1 "s"
      = some .barrier :=
  (c4_single_flight_amended [] "s").1 rfl

/-- C5: a stream read through `statsConn` adds exactly `n` to the
shared uplink counter (also when the error is non-nil), a stream
write adds exactly `n` to the shared downlink counter on the same
basis, the returned pair is passed through unchanged, and no other
field of the owning entry changes. -/
theorem c5_stats_conn_accounting (s : appStats) (n : Nat) (err : Bool) :
    (statsConnRead s n err).1.uplink = (s.uplink + n) % 2 ^ 64
  ∧ (statsConnRead s n err).1.downlink = s.downlink
  ∧ (statsConnRead s n err).1.uplinkTotal = s.uplinkTotal
  ∧ (statsConnRead s n err).1.downlinkTotal = s.downlinkTotal
  ∧ (statsConnRead s n err).1.tcpConn = s.tcpConn
  ∧ (statsConnRead s n err).1.udpConn = s.udpConn
  ∧ (statsConnRead s n err).1.tcpConnTotal = s.tcpConnTotal
  ∧ (statsConnRead s n err).1.udpConnTotal = s.udpConnTotal
  ∧ (statsConnRead s n err).1.deactivateAt = s.deactivateAt
  ∧ (statsConnRead s n err).2 = (n, err)
  ∧ (statsConnWrite s n err).1.downlink = (s.downlink + n) % 2 ^ 64
  ∧ (statsConnWrite s n err).1.uplink = s.uplink
  ∧ (statsConnWrite s n err).1.uplinkTotal = s.uplinkTotal
  ∧ (statsConnWrite s n err).1.downlinkTotal = s.downlinkTotal
  ∧ (statsConnWrite s n err).1.tcpConn = s.tcpConn
  ∧ (statsConnWrite s n err).1.udpConn = s.udpConn
  ∧ (statsConnWrite s n err).1.tcpConnTotal = s.tcpConnTotal
  ∧ (statsConnWrite s n err).1.udpConnTotal = s.udpConnTotal
  ∧ (statsConnWrite s n err).1.deactivateAt = s.deactivateAt
  ∧ (statsConnWrite s n err).2 = (n, err) := by
  simp [statsConnRead, statsConnWrite]

/-- C6: a packet read through `statsPacketConn` adds `n` (or the
buffer length) to the shared downlink counter exactly when the read
returns without error, a packet write adds `n` to the shared uplink
counter exactly when the write returns without error, and on error
the counters are unchanged. -/
theorem c6_stats_packet_conn_accounting (s : appStats) (n : Nat) (err : Bool) :
    (err = false →
        (statsPacketConnReadFrom s n err).1.downlink = (s.downlink + n) % 2 ^ 64
      ∧ (statsPacketConnReadFrom s n err).1.uplink = s.uplink
      ∧ (statsPacketConnReadFromBuf s n err).1.downlink = (s.downlink + n) % 2 ^ 64
      ∧ (statsPacketConnReadFromBuf s n err).1.uplink = s.uplink
      ∧ (statsPacketConnWriteTo s n err).1.uplink = (s.uplink + n) % 2 ^ 64
      ∧ (statsPacketConnWriteTo s n err).1.downlink = s.downlink)
  ∧ (err = true →
        (statsPacketConnReadFrom s n err).1 = s
      ∧ (statsPacketConnReadFromBuf s n err).1 = s
      ∧ (statsPacketConnWriteTo s n err).1 = s) := by
  constructor <;> rintro rfl <;>
    simp [statsPacketConnReadFrom, statsPacketConnReadFromBuf,
          statsPacketConnWriteTo]

/-- C6 witness: a successful 5-byte packet read and write on `c6Stat`
are accounted as claimed. -/
theorem c6_stats_packet_conn_accounting_witness :
    (statsPacketConnReadFrom c6Stat 5 false).1.downlink
        = (c6Stat.downlink + 5) % 2 ^ 64
  ∧ (statsPacketConnReadFrom c6Stat 5 false).1.uplink = c6Stat.uplink
  ∧ (statsPacketConnReadFromBuf c6Stat 5 false).1.downlink
        = (c6Stat.downlink + 5) % 2 ^ 64
  ∧ (statsPacketConnReadFromBuf c6Stat 5 false).1.uplink = c6Stat.uplink
  ∧ (statsPacketConnWriteTo c6Stat 5 false).1.uplink
        = (c6Stat.uplink + 5) % 2 ^ 64
  ∧ (statsPacketConnWriteTo c6Stat 5 false).1.downlink = c6Stat.downlink :=
  (c6_stats_packet_conn_accounting c6Stat 5 false).1 rfl

/-- C7: `ResetAppTraffics` (with traffic stats enabled, live counts
non-negative) zeroes all four byte counters of every entry, and a UID
survives the call exactly when its entry existed with live connection
counts not both zero; every surviving entry has all four byte
counters equal to zero. -/
theorem c7_reset_app_traffics (t : Tun2ray) (h : t.trafficStats = true)
    (hpos : ∀ p ∈ t.appStatsMap, 0 ≤ p.2.tcpConn ∧ 0 ≤ p.2.udpConn) :
    (∀ p ∈ (ResetAppTraffics t).appStatsMap,
        p.2.uplink = 0 ∧ p.2.downlink = 0
      ∧ p.2.uplinkTotal = 0 ∧ p.2.downlinkTotal = 0)
  ∧ (∀ uid : Nat,
      (∃ q ∈ (ResetAppTraffics t).appStatsMap, q.1 = uid)
        ↔ ∃ p ∈ t.appStatsMap, p.1 = uid
            ∧ ¬(p.2.tcpConn = 0 ∧ p.2.udpConn = 0)) := by
  have hmap : (ResetAppTraffics t).appStatsMap
      = (t.appStatsMap.map (fun p => (p.1, zeroBytes p.2))).filter
          (fun p => !(p.2.tcpConn + p.2.udpConn == 0)) := by
    simp [ResetAppTraffics, h]
  constructor
  · intro p hp
    rw [hmap] at hp
    have hp2 := List.mem_of_mem_filter hp
    rw [List.mem_map] at hp2
    obtain ⟨q, hq, rfl⟩ := hp2
    simp [zeroBytes]
  · intro uid
    constructor
    · rintro ⟨q, hq, rfl⟩
      rw [hmap] at hq
      have hq2 := List.mem_of_mem_filter hq
      have hqf := List.of_mem_filter hq
      rw [List.mem_map] at hq2
      obtain ⟨p, hp, rfl⟩ := hq2
      refine ⟨p, hp, rfl, ?_⟩
      simp [zeroBytes] at hqf
      obtain ⟨h1, h2⟩ := hpos p hp
      intro hc
      obtain ⟨hc1, hc2⟩ := hc
      exact hqf (by omega)
    · rintro ⟨p, hp, hpu, hnz⟩
      refine ⟨(p.1, zeroBytes p.2), ?_, hpu⟩
      rw [hmap]
      refine List.mem_filter.mpr ⟨List.mem_map_of_mem _ hp, ?_⟩
      simp [zeroBytes]
      intro h0
      obtain ⟨h1, h2⟩ := hpos p hp
      exact hnz ⟨by omega, by omega⟩

/-- C7 witness: the surviving entry of `c7Tun` has all four byte
counters zero after the reset. -/
theorem c7_reset_app_traffics_witness :
    (zeroBytes c7Live).uplink = 0 ∧ (zeroBytes c7Live).downlink = 0
  ∧ (zeroBytes c7Live).uplinkTotal = 0 ∧ (zeroBytes c7Live).downlinkTotal = 0 :=
  (c7_reset_app_traffics c7Tun rfl (by decide)).1 (1000, zeroBytes c7Live)
    (by decide)

/-- C8 counterexample: when `dialUDP` fails, `NewPacket` logs the
error and returns at once — the TUN-side `closer` is not closed on
this exit, contradicting "on every exit of the handler ... the
upstream conn and TUN-side closer for UDP are closed". -/
theorem c8_teardown_counterexample :
    (NewPacketOwner c8Tun "8.8.8.8" c8Env).dialLogged = true
  ∧ (NewPacketOwner c8Tun "8.8.8.8" c8Env).closedCloser = false
  ∧ (NewPacketOwner c8Tun "8.8.8.8" c8Env).natSet = false := by decide

/-- C8 amended: for TCP, every exit of `NewConnection` closes the
inbound conn, the dispatcher reader and the dispatcher writer, and a
dispatcher rejection is logged; for UDP, the normal exit closes the
upstream conn and the closer and deletes the NAT entry, but on a
`dialUDP` error the handler only logs and returns, closing nothing;
closes are idempotent. -/
theorem c8_teardown_amended (t : Tun2ray) (destAddr : String)
    (cenv : ConnEnv) (penv : PacketEnv) :
    ((NewConnectionModel t destAddr cenv).closedConn = true
      ∧ (NewConnectionModel t destAddr cenv).closedReader = true
      ∧ (NewConnectionModel t destAddr cenv).closedWriter = true
      ∧ (NewConnectionModel t destAddr cenv).dispatchLogged = cenv.dispatchErr)
  ∧ (penv.dialErr = false →
        (NewPacketOwner t destAddr penv).closedConn = true
      ∧ (NewPacketOwner t destAddr penv).closedCloser = true
      ∧ (NewPacketOwner t destAddr penv).natKeyDeleted = true)
  ∧ (penv.dialErr = true →
        (NewPacketOwner t destAddr penv).dialLogged = true
      ∧ (NewPacketOwner t destAddr penv).closedCloser = false
      ∧ (NewPacketOwner t destAddr penv).closedConn = false)
  ∧ (∀ c rs : Finset ℕ, closeIgnore (closeIgnore c rs) rs = closeIgnore c rs) := by
  refine ⟨⟨rfl, rfl, rfl, rfl⟩, ?_, ?_, ?_⟩
  · intro hE
    simp [NewPacketOwner, hE]
  · intro hE
    simp [NewPacketOwner, hE]
  · intro c rs
    simp [closeIgnore, Finset.union_assoc]

/-- C8 amended witness: on a successful dial, the UDP handler closes
the upstream conn and the closer and deletes the NAT entry. -/
theorem c8_teardown_amended_witness :
    (NewPacketOwner c8Tun "8.8.8.8" c8EnvOk).closedConn = true
  ∧ (NewPacketOwner c8Tun "8.8.8.8" c8EnvOk).closedCloser = true
  ∧ (NewPacketOwner c8Tun "8.8.8.8" c8EnvOk).natKeyDeleted = true :=
  (c8_teardown_amended c8Tun "8.8.8.8"
    { dump := { ok := false, uid := 0 }, procUid := 0, dispatchErr := false }
    c8EnvOk).2.1 rfl

/-- C9: a flow is classified DNS exactly when the destination address
string equals the router sentinel; a DNS flow gets inbound tag
"dns-in" (otherwise "socks"), no sniffing request even when sniffing
or fakedns is enabled, and no stats wrapper — for both the TCP and
the UDP handler. -/
theorem c9_dns_classification (t : Tun2ray) (destAddr : String)
    (cenv : ConnEnv) (penv : PacketEnv) :
    ((NewConnectionModel t destAddr cenv).tag = "dns-in" ↔ destAddr = t.router)
  ∧ (destAddr ≠ t.router → (NewConnectionModel t destAddr cenv).tag = "socks")
  ∧ (destAddr = t.router →
        (NewConnectionModel t destAddr cenv).sniffAttached = false
      ∧ (NewConnectionModel t destAddr cenv).sniffProtocols = []
      ∧ (NewConnectionModel t destAddr cenv).statsAttached = false)
  ∧ ((NewPacketOwner t destAddr penv).tag = "dns-in" ↔ destAddr = t.router)
  ∧ (destAddr ≠ t.router → (NewPacketOwner t destAddr penv).tag = "socks")
  ∧ (destAddr = t.router →
        (NewPacketOwner t destAddr penv).sniffAttached = false
      ∧ (NewPacketOwner t destAddr penv).sniffProtocols = []
      ∧ (NewPacketOwner t destAddr penv).statsAttached = false) := by
  by_cases hD : destAddr = t.router
  · have hb : (destAddr == t.router) = true := by simp [hD]
    cases hE : penv.dialErr <;>
      simp [NewConnectionModel, NewPacketOwner, hb, hD, hE]
  · have hb : (destAddr == t.router) = false := by simp [hD]
    cases hE : penv.dialErr <;>
      simp [NewConnectionModel, NewPacketOwner, hb, hD, hE]

/-- C9 witness: with sniffing, fakedns and stats all enabled, a flow
to the router sentinel of `c9Tun` attaches no sniffing request and no
stats wrapper. -/
theorem c9_dns_classification_witness :
    ((NewConnectionModel c9Tun "1.2.3.4" c9CEnv).sniffAttached = false
  ∧ (NewConnectionModel c9Tun "1.2.3.4" c9CEnv).sniffProtocols = []
  ∧ (NewConnectionModel c9Tun "1.2.3.4" c9CEnv).statsAttached = false) :=
  (c9_dns_classification c9Tun "1.2.3.4" c9CEnv c9PEnv).2.2.1 rfl

/-- C10: the export built by `ReadAppTraffics` converts the internal
`uint32` connection totals and the internal `int64` `deactivateAt` to
signed 32-bit fields by `toInt32` (reduction modulo `2 ^ 32`
reinterpreted as signed), and `toInt32` moves every value above
`2 ^ 31 - 1` away from itself. -/
theorem c10_export_truncation (t : Tun2ray) (h : t.trafficStats = true)
    (i : Nat) (hi : i < t.appStatsMap.length)
    (hj : i < (ReadAppTraffics t).2.length) :
    (((ReadAppTraffics t).2.get ⟨i, hj⟩).TcpConnTotal
        = toInt32 (t.appStatsMap.get ⟨i, hi⟩).2.tcpConnTotal
      ∧ ((ReadAppTraffics t).2.get ⟨i, hj⟩).UdpConnTotal
        = toInt32 (t.appStatsMap.get ⟨i, hi⟩).2.udpConnTotal
      ∧ ((ReadAppTraffics t).2.get ⟨i, hj⟩).DeactivateAt
        = toInt32 (t.appStatsMap.get ⟨i, hi⟩).2.deactivateAt)
  ∧ (∀ v : Nat, 2 ^ 31 - 1 < v → v < 2 ^ 32 → toInt32 v ≠ v)
  ∧ (∀ d : Int, 2 ^ 31 - 1 < d → toInt32 d ≠ d) := by
  refine ⟨?_, ?_, ?_⟩
  · have he := readAppTraffics_exports t h
    simp only [he, List.get_eq_getElem, List.getElem_map]
    simp [snapshotEntry]
  · intro v h1 h2
    simp only [toInt32]
    omega
  · intro d h1
    simp only [toInt32]
    omega

/-- C10 witness: a connection total of `2 ^ 31` is exported as a
different (negative) value. -/
theorem c10_export_truncation_witness :
    c10Tun.trafficStats = true
  ∧ toInt32 ((2 ^ 31 : Nat) : Int) ≠ ((2 ^ 31 : Nat) : Int) :=
  ⟨rfl, (c10_export_truncation c10Tun rfl 0 (by decide) (by decide)).2.1
      (2 ^ 31) (by decide) (by decide)⟩

end Libcore
